import Mathlib

/-!
Verification of the payment-to-order reconciliation flow of an e-commerce
storefront (cart validation, checkout-session creation, Stripe webhook
confirmation handler, customer resolution).

The TypeScript sources are shallowly embedded as executable Lean functions:
  * `src/lib/actions/checkout.ts`   → `Shop.validateItems`,
    `Shop.toStripeLineItem`, `Shop.createCheckoutSession`,
    `Shop.getCheckoutSession`
  * `src/lib/actions/customer.ts`   → `Shop.getOrCreateStripeCustomer`
  * `src/app/api/webhooks/stripe/route.ts` → `Shop.handleCheckoutCompleted`,
    `Shop.POST`
  * `src/sanity/queries/*.ts`       → list lookups over explicit stores

Modelling conventions:
  * JavaScript numbers used for money are embedded as `ℚ` (exact); Stripe
    minor-unit amounts are `Int`; `Math.round` is `Shop.jsRound`.
  * JavaScript `string | undefined` is `Option String`; the JS falsy test
    `!s` on such a value is `Shop.strFalsy`.
  * `Array.prototype.join(",")` / `String.prototype.split(",")` are
    `Shop.jsJoinComma` / `Shop.jsSplitComma` (over `String.data`).
  * Implicit number→string conversion is `Shop.natToString`; `Number(s)` on
    the decimal strings this flow produces is `Shop.parseDigits` (claims
    never exercise non-numeric strings, where `Number` would give NaN).
  * External collaborators (Sanity content store, Stripe) are explicit
    state: `Shop.Store` (orders, products, customers) and `Shop.CustState`;
    fallible Sanity writes are driven by a `Shop.DbBehavior` record, a
    thrown exception being an explicit error value.
-/

namespace Shop

/-- JS `Math.round x` (round half toward +∞), as used on `price * 100`;
for the non-negative prices of this flow it is round-half-up. -/
def jsRound (q : ℚ) : Int := Int.floor (q + 1/2)

/-- JS falsy test `!s` for a `string | undefined` value: true on
`undefined` and on the empty string. -/
def strFalsy : Option String → Bool
  | none => true
  | some s => decide (s = "")

/-- JS `||` on strings: `a || b` is `b` when `a` is empty. -/
def jsOrElse (a b : String) : String := if a = "" then b else a

/-- JS `arr.join(",")`. -/
def jsJoinComma (l : List String) : String :=
  ⟨List.intercalate [','] (l.map String.data)⟩

/-- JS `s.split(",")`. -/
def jsSplitComma (s : String) : List String :=
  (s.data.splitOn ',').map (fun cs => ⟨cs⟩)

/-- Little-endian base-10 digits, by fuel-based structural recursion so
that concrete values reduce inside the kernel. -/
def natDigitsAux : Nat → Nat → List Nat
  | 0, _ => []
  | _ + 1, 0 => []
  | fuel + 1, n + 1 => ((n + 1) % 10) :: natDigitsAux fuel ((n + 1) / 10)

/-- JS implicit number→string conversion for a natural number
(decimal digits, `0` rendered as `"0"`). -/
def natToChars (n : Nat) : List Char :=
  if n = 0 then ['0'] else ((natDigitsAux n n).map Nat.digitChar).reverse

/-- `natToChars` packaged as a `String`. -/
def natToString (n : Nat) : String := ⟨natToChars n⟩

/-- JS `Number(s)` on the decimal digit strings produced by this flow. -/
def parseDigits (cs : List Char) : Nat :=
  cs.foldl (fun a c => a * 10 + (c.toNat - 48)) 0

/-- A product snapshot as returned by `PRODUCTS_BY_IDS_QUERY`
(`src/sanity/queries/products.ts`): `_id`, `name`, `price`, first-image
URL and `stock`; every field other than `_id` may be absent. -/
structure Product where
  id : String
  name : Option String
  price : Option ℚ
  stock : Option Int
  image : Option String
deriving DecidableEq

/-- `client.fetch(PRODUCTS_BY_IDS_QUERY, {ids})`: all products whose
`_id` is in `ids`. -/
def productsByIds (catalog : List Product) (ids : List String) : List Product :=
  catalog.filter (fun p => p.id ∈ ids)

/-- A client-supplied cart item (`CartItem` in `src/lib/actions/checkout.ts`):
the `name` and `price` are advisory only. -/
structure CartItem where
  productId : String
  name : String
  price : ℚ
  quantity : Nat
  image : Option String
deriving DecidableEq

/-- One entry of `validatedItems`: the authoritative product snapshot
paired with the requested quantity. -/
structure ValidatedItem where
  product : Product
  quantity : Nat
deriving DecidableEq

/-- The three failure shapes pushed onto `validationErrors` in
`createCheckoutSession` step 4, one constructor per push site, carrying
exactly the values the template string interpolates. -/
inductive ValidationError where
  | productUnavailable (itemName : String)
  | outOfStock (productName : Option String)
  | insufficientStock (stock : Option Int) (productName : Option String)
deriving DecidableEq

/-- JS template interpolation of a possibly-undefined string. -/
def showOptStr : Option String → String
  | some s => s
  | none => "undefined"

/-- JS template interpolation of a possibly-undefined number. -/
def showOptInt : Option Int → String
  | some n => toString n
  | none => "undefined"

/-- The user-facing message each `validationErrors.push` builds. -/
def ValidationError.message : ValidationError → String
  | .productUnavailable itemName =>
      "Product \"" ++ itemName ++ "\" is no longer available"
  | .outOfStock productName =>
      "\"" ++ showOptStr productName ++ "\" is out of stock"
  | .insufficientStock stock productName =>
      "Only " ++ showOptInt stock ++ " of \"" ++ showOptStr productName
        ++ "\" available"

/-- `products.find(p => p._id === item.productId)`. -/
def findProduct (products : List Product) (pid : String) : Option Product :=
  products.find? (fun p => p.id = pid)

/-- One iteration of the validation `for` loop of `createCheckoutSession`
step 4: append an error and `continue`, or append a validated item. -/
def validateStep (products : List Product)
    (acc : List ValidationError × List ValidatedItem) (item : CartItem) :
    List ValidationError × List ValidatedItem :=
  match findProduct products item.productId with
  | none => (acc.1 ++ [.productUnavailable item.name], acc.2)
  | some product =>
    if product.stock.getD 0 = 0 then
      (acc.1 ++ [.outOfStock product.name], acc.2)
    else if (item.quantity : Int) > product.stock.getD 0 then
      (acc.1 ++ [.insufficientStock product.stock product.name], acc.2)
    else
      (acc.1, acc.2 ++ [⟨product, item.quantity⟩])

/-- The whole validation loop: collected errors and validated items. -/
def validateItems (products : List Product) (items : List CartItem) :
    List ValidationError × List ValidatedItem :=
  items.foldl (validateStep products) ([], [])

/-- The error, if any, the loop records for a single cart item. -/
def itemError (products : List Product) (item : CartItem) :
    Option ValidationError :=
  match findProduct products item.productId with
  | none => some (.productUnavailable item.name)
  | some product =>
    if product.stock.getD 0 = 0 then some (.outOfStock product.name)
    else if (item.quantity : Int) > product.stock.getD 0 then
      some (.insufficientStock product.stock product.name)
    else none

/-- The validated item, if any, the loop records for a single cart item. -/
def itemOk (products : List Product) (item : CartItem) :
    Option ValidatedItem :=
  match findProduct products item.productId with
  | none => none
  | some product =>
    if product.stock.getD 0 = 0 then none
    else if (item.quantity : Int) > product.stock.getD 0 then none
    else some ⟨product, item.quantity⟩

theorem validateStep_acc (products : List Product) (item : CartItem)
    (e : List ValidationError) (v : List ValidatedItem) :
    validateStep products (e, v) item =
      (e ++ (itemError products item).toList,
       v ++ (itemOk products item).toList) := by
  unfold validateStep itemError itemOk
  cases findProduct products item.productId with
  | none => simp
  | some product =>
    by_cases h0 : product.stock.getD 0 = 0
    · simp [h0]
    · by_cases h1 : (item.quantity : Int) > product.stock.getD 0
      · simp [h0, h1]
      · simp [h0, h1]

theorem validateItems_from (products : List Product) (items : List CartItem)
    (e : List ValidationError) (v : List ValidatedItem) :
    items.foldl (validateStep products) (e, v) =
      (e ++ items.filterMap (itemError products),
       v ++ items.filterMap (itemOk products)) := by
  induction items generalizing e v with
  | nil => simp
  | cons item rest ih =>
    rw [List.foldl_cons, validateStep_acc, ih]
    cases he : itemError products item <;>
      cases ho : itemOk products item <;>
        simp [he, ho, List.append_assoc]

/-- `validateItems` collects, in cart order, exactly the per-item errors
and per-item validated entries: no short-circuiting. -/
theorem validateItems_eq (products : List Product) (items : List CartItem) :
    validateItems products items =
      (items.filterMap (itemError products),
       items.filterMap (itemOk products)) := by
  simpa using validateItems_from products items [] []

/-- A Sanity `customer` document (`src/sanity/schemaTypes/customerType.ts`,
fields projected by `CUSTOMER_BY_EMAIL_QUERY`). -/
structure SanityCustomer where
  id : String
  email : String
  name : String
  clerkUserId : String
  stripeCustomerId : Option String
deriving DecidableEq

/-- A Stripe customer record, with the `clerkUserId` metadata the code
attaches on creation. -/
structure StripeCustomer where
  id : String
  email : String
  name : String
  metaClerkUserId : Option String
deriving DecidableEq

/-- The two customer stores `getOrCreateStripeCustomer` touches.  Fresh
document ids are modelled by counters (`Date`/Stripe id generation). -/
structure CustState where
  sanity : List SanityCustomer
  stripe : List StripeCustomer
  sanityCtr : Nat
  stripeCtr : Nat
deriving DecidableEq

/-- `client.fetch(CUSTOMER_BY_EMAIL_QUERY, {email})`: first customer
document whose `email` matches (`[0]` selection). -/
def fetchCustomerByEmail (st : CustState) (email : String) :
    Option SanityCustomer :=
  st.sanity.find? (fun c => c.email = email)

/-- Steps 2 of `getOrCreateStripeCustomer` (`src/lib/actions/customer.ts`):
`stripe.customers.list({email, limit: 1})`, falling back to
`stripe.customers.create({email, name, metadata: {clerkUserId}})`. -/
def stripeLookupOrCreate (email name clerkUserId : String) (st : CustState) :
    String × CustState :=
  match st.stripe.find? (fun c => c.email = email) with
  | some c => (c.id, st)
  | none =>
    let newId := "cus_" ++ natToString st.stripeCtr
    (newId,
      { st with
        stripe := st.stripe ++ [⟨newId, email, name, some clerkUserId⟩],
        stripeCtr := st.stripeCtr + 1 })

/-- `getOrCreateStripeCustomer(email, name, clerkUserId)`
(`src/lib/actions/customer.ts`): Sanity lookup **by email**, then Stripe
lookup by email, then Stripe create; finally patch the existing Sanity
document or create a new one.  Returns
`(stripeCustomerId, sanityCustomerId)` and the updated stores. -/
def getOrCreateStripeCustomer (email name clerkUserId : String)
    (st : CustState) : (String × String) × CustState :=
  match fetchCustomerByEmail st email with
  | some c =>
    match c.stripeCustomerId with
    | some sc => ((sc, c.id), st)
    | none =>
      let r := stripeLookupOrCreate email name clerkUserId st
      ((r.1, c.id),
        { r.2 with
          sanity := r.2.sanity.map (fun d =>
            if d.id = c.id then
              { d with stripeCustomerId := some r.1,
                       clerkUserId := clerkUserId, name := name }
            else d) })
  | none =>
    let r := stripeLookupOrCreate email name clerkUserId st
    let newId := "customer-" ++ natToString r.2.sanityCtr
    ((r.1, newId),
      { r.2 with
        sanity := r.2.sanity ++ [⟨newId, email, name, clerkUserId, some r.1⟩],
        sanityCtr := r.2.sanityCtr + 1 })

/-- A Stripe checkout line item as built in `createCheckoutSession`
step 5: `price_data` (name, images, productId metadata, `unit_amount`
in pence) plus the quantity. -/
structure StripeLineItem where
  name : String
  images : List String
  metaProductId : String
  unit_amount : Int
  quantity : Nat
deriving DecidableEq

/-- Step 5 of `createCheckoutSession`: one validated item to one Stripe
line item; `unit_amount := Math.round((product.price ?? 0) * 100)`. -/
def toStripeLineItem (v : ValidatedItem) : StripeLineItem :=
  { name := v.product.name.getD "Product"
    images := match v.product.image with
      | some u => [u]
      | none => []
    metaProductId := v.product.id
    unit_amount := jsRound ((v.product.price.getD 0) * 100)
    quantity := v.quantity }

/-- The metadata map attached to the checkout session (step 7).  Fields
are `Option String` because the webhook later reads them from an
untrusted `session.metadata ?? {}`. -/
structure SessionMetadata where
  clerkUserId : Option String
  userEmail : Option String
  sanityCustomerId : Option String
  productIds : Option String
  quantities : Option String
deriving DecidableEq

/-- Step 7 of `createCheckoutSession`: comma-joined, positionally aligned
product ids and quantities plus the buyer identifiers. -/
def buildMetadata (userId userEmail sanityCustomerId : String)
    (validated : List ValidatedItem) : SessionMetadata :=
  { clerkUserId := some userId
    userEmail := some userEmail
    sanityCustomerId := some sanityCustomerId
    productIds := some (jsJoinComma (validated.map (fun v => v.product.id)))
    quantities :=
      some (jsJoinComma (validated.map (fun v => natToString v.quantity))) }

/-- The environment variables feeding the base-URL fallback chain. -/
structure Env where
  baseUrl : Option String
  vercelUrl : Option String
deriving DecidableEq

/-- `NEXT_PUBLIC_BASE_URL || (VERCEL_URL ? https://VERCEL_URL : null) ||
"http://localhost:3000"` (JS `||`, so empty strings fall through). -/
def baseUrlOf (env : Env) : String :=
  if strFalsy env.baseUrl then
    if strFalsy env.vercelUrl then "http://localhost:3000"
    else "https://" ++ env.vercelUrl.getD ""
  else env.baseUrl.getD ""

/-- The argument record of `stripe.checkout.sessions.create` as assembled
in step 8 (fields not influenced by the inputs under study, such as the
shipping-country allowlist, are omitted as constants). -/
structure SessionCreateParams where
  mode : String
  line_items : List StripeLineItem
  customer : String
  metadata : SessionMetadata
  success_url : String
  cancel_url : String
deriving DecidableEq

/-- Outcome of `createCheckoutSession`: either the structured
`{success: false, error}` result, or the session-creation request handed
to Stripe (whose redirect URL the provider then returns). -/
inductive CheckoutOutcome where
  | failure (error : String)
  | sessionRequest (params : SessionCreateParams)
deriving DecidableEq

/-- The authenticated buyer as read from Clerk (`currentUser()`). -/
structure UserInfo where
  emails : List String
  firstName : Option String
  lastName : Option String
deriving DecidableEq

/-- `createCheckoutSession(items)` (`src/lib/actions/checkout.ts`),
with the ambient collaborators made explicit: Clerk auth
(`auth`/`user`), the Sanity catalog, env vars and the customer stores. -/
def createCheckoutSession (auth : Option String) (user : Option UserInfo)
    (catalog : List Product) (env : Env) (items : List CartItem)
    (st : CustState) : CheckoutOutcome × CustState :=
  match auth, user with
  | some userId, some u =>
    if userId = "" then (.failure "Please sign in to checkout", st)
    else if items = [] then (.failure "Your cart is empty", st)
    else
      let products := productsByIds catalog (items.map (fun i => i.productId))
      let validated := validateItems products items
      if validated.1 = [] then
        let userEmail := (u.emails.head?).getD ""
        let userName :=
          jsOrElse (((u.firstName.getD "") ++ " " ++ (u.lastName.getD "")).trim)
            userEmail
        let r := getOrCreateStripeCustomer userEmail userName userId st
        (.sessionRequest
          { mode := "payment"
            line_items := validated.2.map toStripeLineItem
            customer := r.1.1
            metadata := buildMetadata userId userEmail r.1.2 validated.2
            success_url := baseUrlOf env
              ++ "/checkout/success?session_id=\x7bCHECKOUT_SESSION_ID\x7d"
            cancel_url := baseUrlOf env ++ "/checkout" },
          r.2)
      else
        (.failure (String.intercalate ". "
          (validated.1.map ValidationError.message)), st)
  | _, _ => (.failure "Please sign in to checkout", st)

/-- A Stripe address object (`session.customer_details.address`). -/
structure SAddress where
  line1 : Option String
  line2 : Option String
  city : Option String
  postal_code : Option String
  country : Option String
deriving DecidableEq

/-- `session.customer_details`. -/
structure CustDetails where
  email : Option String
  name : Option String
  address : Option SAddress
deriving DecidableEq

/-- A line item as returned by
`stripe.checkout.sessions.listLineItems(session.id)`: only its
`amount_total` (pence, the line's total across its quantity) is read. -/
structure SLineItem where
  amount_total : Int
deriving DecidableEq

/-- The `Stripe.Checkout.Session` object carried by a
`checkout.session.completed` event, restricted to the fields the webhook
handler reads. -/
structure CheckoutSessionObj where
  id : String
  payment_intent : String
  metadata : Option SessionMetadata
  amount_total : Option Int
  customer_details : Option CustDetails
deriving DecidableEq

/-- An order line item as written to Sanity by the webhook handler. -/
structure OrderItem where
  key : String
  productRef : String
  quantity : Nat
  priceAtPurchase : ℚ
deriving DecidableEq

/-- The shipping address stored on the order. -/
structure OrderAddress where
  name : String
  line1 : String
  line2 : String
  city : String
  postcode : String
  country : String
deriving DecidableEq

/-- The Sanity `order` document created by the webhook handler. -/
structure Order where
  orderNumber : String
  customer : Option String
  clerkUserId : String
  email : String
  items : List OrderItem
  total : ℚ
  status : String
  stripePaymentId : String
  address : Option OrderAddress
  createdAt : String
deriving DecidableEq

/-- The Sanity content store as the reconciliation flow sees it. -/
structure Store where
  orders : List Order
  products : List Product
  customers : List SanityCustomer
deriving DecidableEq

/-- Which Sanity calls succeed during one webhook delivery; a `false`
models the call throwing (a transient infrastructure error). -/
structure DbBehavior where
  fetchOk : Bool
  createOk : Bool
  commitOk : Bool
deriving DecidableEq

/-- The all-healthy database behaviour. -/
def dbOk : DbBehavior := ⟨true, true, true⟩

/-- The exception escaping `handleCheckoutCompleted`'s `catch`+rethrow. -/
inductive DbErr where
  | fetchFailed
  | createFailed
  | commitFailed
deriving DecidableEq

/-- `ORDER_BY_STRIPE_PAYMENT_ID_QUERY` (`src/sanity/queries/orders.ts`):
first order whose `stripePaymentId` matches. -/
def findOrderByPaymentId (orders : List Order) (pid : String) :
    Option Order :=
  orders.find? (fun o => o.stripePaymentId = pid)

/-- `productIds.map((productId, index) => ...)` of the webhook handler:
the order items, pairing each product id with `quantities[index]` and
`priceAtPurchase` from the Stripe line item at the same index
(`amount_total ? amount_total / 100 : 0`). -/
def buildOrderItems (productIds : List String) (quantities : List Nat)
    (lineItems : List SLineItem) : List OrderItem :=
  (List.range productIds.length).map (fun i =>
    { key := "item-" ++ natToString i
      productRef := productIds.getD i ""
      quantity := quantities.getD i 0
      priceAtPurchase :=
        match lineItems.get? i with
        | some li =>
          if li.amount_total = 0 then 0 else (li.amount_total : ℚ) / 100
        | none => 0 })

/-- The shipping address block: only present when
`session.customer_details?.address` is. -/
def buildAddress (session : CheckoutSessionObj) : Option OrderAddress :=
  match session.customer_details with
  | none => none
  | some cd =>
    match cd.address with
    | none => none
    | some a =>
      some { name := cd.name.getD ""
             line1 := a.line1.getD ""
             line2 := a.line2.getD ""
             city := a.city.getD ""
             postcode := a.postal_code.getD ""
             country := a.country.getD "" }

/-- One Sanity `dec({stock: q})` patch on the document `pid`. -/
def decStock (products : List Product) (pid : String) (q : Nat) :
    List Product :=
  products.map (fun p =>
    if p.id = pid then { p with stock := p.stock.map (fun s => s - (q : Int)) }
    else p)

/-- The committed stock transaction: every per-product decrement patch,
applied together (`writeClient.transaction() ... .commit()`). -/
def applyStockDec (products : List Product) (pairs : List (String × Nat)) :
    List Product :=
  pairs.foldl (fun ps pr => decStock ps pr.1 pr.2) products

/-- `session.metadata ?? {}` as destructured by the handler. -/
def metaOf (session : CheckoutSessionObj) : SessionMetadata :=
  session.metadata.getD ⟨none, none, none, none, none⟩

/-- `productIdsString.split(",")`. -/
def pidsOf (m : SessionMetadata) : List String :=
  jsSplitComma (m.productIds.getD "")

/-- `quantitiesString.split(",").map(Number)`. -/
def qtysOf (m : SessionMetadata) : List Nat :=
  (jsSplitComma (m.quantities.getD "")).map (fun s => parseDigits s.data)

/-- The `(productId, quantities[index])` pairs the stock transaction
patches, positionally. -/
def pairsOf (m : SessionMetadata) : List (String × Nat) :=
  (List.range (pidsOf m).length).map (fun i =>
    ((pidsOf m).getD i "", (qtysOf m).getD i 0))

/-- The `order` document assembled by the handler before
`writeClient.create`. -/
def mkOrder (lineItemsOf : String → List SLineItem)
    (orderNumber createdAt : String) (session : CheckoutSessionObj) :
    Order :=
  let m := metaOf session
  { orderNumber := orderNumber
    customer :=
      if strFalsy m.sanityCustomerId then none else m.sanityCustomerId
    clerkUserId := m.clerkUserId.getD ""
    email :=
      ((m.userEmail).or
        (session.customer_details.bind (fun cd => cd.email))).getD ""
    items := buildOrderItems (pidsOf m) (qtysOf m) (lineItemsOf session.id)
    total := ((session.amount_total.getD 0 : Int) : ℚ) / 100
    status := "paid"
    stripePaymentId := session.payment_intent
    address := buildAddress session
    createdAt := createdAt }

/-- `handleCheckoutCompleted(session)`
(`src/app/api/webhooks/stripe/route.ts`): idempotency check by
`stripePaymentId`, metadata extraction with the fail-closed check on
`clerkUserId`/`productIds`/`quantities`, order materialization and the
atomic stock transaction.  Returns the store after all persisted writes
plus the rethrown exception, if any (`none` = the handler returned). -/
def handleCheckoutCompleted (db : DbBehavior)
    (lineItemsOf : String → List SLineItem)
    (orderNumber createdAt : String) (session : CheckoutSessionObj)
    (store : Store) : Store × Option DbErr :=
  if db.fetchOk = false then (store, some .fetchFailed)
  else
    match findOrderByPaymentId store.orders session.payment_intent with
    | some _ => (store, none)
    | none =>
      let m := metaOf session
      if strFalsy m.clerkUserId || strFalsy m.productIds
          || strFalsy m.quantities then
        (store, none)
      else if db.createOk = false then (store, some .createFailed)
      else
        let store1 := { store with
          orders := store.orders
            ++ [mkOrder lineItemsOf orderNumber createdAt session] }
        if db.commitOk = false then (store1, some .commitFailed)
        else
          ({ store1 with
              products := applyStockDec store1.products (pairsOf m) },
           none)

/-- The parsed Stripe event: the handled kind with its payload, or any
other event type (acknowledged and ignored). -/
inductive StripeEvent where
  | checkoutCompleted (session : CheckoutSessionObj)
  | otherEvent (type : String)
deriving DecidableEq

/-- The HTTP response of the `POST` route.  `unhandledError` is the
exception escaping the route, which the platform converts to a 5xx. -/
inductive RouteResponse where
  | missingSignature
  | webhookError
  | received
  | unhandledError (e : DbErr)
deriving DecidableEq

/-- The HTTP status each response carries. -/
def responseStatus : RouteResponse → Nat
  | .missingSignature => 400
  | .webhookError => 400
  | .received => 200
  | .unhandledError _ => 500

/-- The webhook `POST` route: read raw body and `stripe-signature`
header, `stripe.webhooks.constructEvent` (modelled as `verify` on the
exact raw body, then `parse`), then the event-type switch.  `verify` and
`parse` are the signature check and JSON decode of the Stripe SDK,
abstracted as parameters. -/
def POST (verify : String → String → Bool)
    (parse : String → Option StripeEvent) (db : DbBehavior)
    (lineItemsOf : String → List SLineItem) (orderNumber createdAt : String)
    (body : String) (signature : Option String) (store : Store) :
    RouteResponse × Store :=
  match signature with
  | none => (.missingSignature, store)
  | some sig =>
    if verify body sig then
      match parse body with
      | none => (.webhookError, store)
      | some (.otherEvent _) => (.received, store)
      | some (.checkoutCompleted session) =>
        match handleCheckoutCompleted db lineItemsOf orderNumber createdAt
            session store with
        | (store1, none) => (.received, store1)
        | (store1, some e) => (.unhandledError e, store1)
    else (.webhookError, store)

/-- `N` sequential deliveries of the same event, one fresh order number
per delivery. -/
def deliverRepeatedly (db : DbBehavior)
    (lineItemsOf : String → List SLineItem) (orderNumbers : List String)
    (createdAt : String) (session : CheckoutSessionObj) (store : Store) :
    Store :=
  orderNumbers.foldl
    (fun s onum =>
      (handleCheckoutCompleted db lineItemsOf onum createdAt session s).1)
    store

/-- A line item of a retrieved checkout session
(`expand: ["line_items"]`). -/
structure RLineItem where
  description : Option String
  quantity : Option Nat
  amount_total : Option Int
deriving DecidableEq

/-- A checkout session as `stripe.checkout.sessions.retrieve` returns
it, restricted to the fields `getCheckoutSession` reads. -/
structure RetrievedSession where
  id : String
  metadata : Option SessionMetadata
  amount_total : Option Int
  payment_status : String
  customer_details : Option CustDetails
  line_items : Option (List RLineItem)
deriving DecidableEq

/-- One mapped line item of the success-page payload. -/
structure LineInfo where
  name : Option String
  quantity : Option Nat
  amount : Option Int
deriving DecidableEq

/-- The session details `getCheckoutSession` returns on success. -/
structure SessionDetails where
  id : String
  customerEmail : Option String
  customerName : Option String
  amountTotal : Option Int
  paymentStatus : String
  shippingAddress : Option SAddress
  lineItems : Option (List LineInfo)
deriving DecidableEq

/-- Result of `getCheckoutSession`: the structured failure
(`{success: false, error}`) or the mapped session data. -/
inductive GetSessionResult where
  | failure (error : String)
  | success (session : SessionDetails)
deriving DecidableEq

/-- The field mapping of `getCheckoutSession` step 4. -/
def mapSessionDetails (s : RetrievedSession) : SessionDetails :=
  { id := s.id
    customerEmail := s.customer_details.bind (fun cd => cd.email)
    customerName := s.customer_details.bind (fun cd => cd.name)
    amountTotal := s.amount_total
    paymentStatus := s.payment_status
    shippingAddress := s.customer_details.bind (fun cd => cd.address)
    lineItems := s.line_items.map (fun l => l.map (fun item =>
      { name := item.description
        quantity := item.quantity
        amount := item.amount_total })) }

/-- `getCheckoutSession(sessionId)` (`src/lib/actions/checkout.ts`):
Clerk auth check, session retrieval (a failed retrieval throws and is
caught), the ownership check on `metadata.clerkUserId`, then the field
mapping. -/
def getCheckoutSession (auth : Option String)
    (sessions : List RetrievedSession) (sessionId : String) :
    GetSessionResult :=
  if strFalsy auth then .failure "Not authenticated"
  else
    match sessions.find? (fun s => s.id = sessionId) with
    | none => .failure "Could not retrieve order details"
    | some s =>
      if (s.metadata.bind (fun m => m.clerkUserId)) = some (auth.getD "") then
        .success (mapSessionDetails s)
      else .failure "Session not found"

theorem handle_dedup (db : DbBehavior) (lio : String → List SLineItem)
    (onum cAt : String) (sess : CheckoutSessionObj) (store : Store)
    (o : Order) (hf : db.fetchOk = true)
    (hx : findOrderByPaymentId store.orders sess.payment_intent = some o) :
    handleCheckoutCompleted db lio onum cAt sess store = (store, none) := by
  unfold handleCheckoutCompleted
  simp [hf, hx]

/-- C3: a request with a missing `stripe-signature` header, or whose
signature does not verify against the exact raw request body (in
particular a body with an altered byte under a signature computed for the
original body), is answered with the 400 signature-error response and the
content store is left untouched: no order, stock or customer write
happens. -/
theorem webhook_rejects_bad_signature_no_side_effects
    (verify : String → String → Bool) (parse : String → Option StripeEvent)
    (db : DbBehavior) (lio : String → List SLineItem)
    (onum cAt body : String) (sig : Option String) (store : Store)
    (h : sig = none ∨ ∀ s, sig = some s → verify body s = false) :
    (POST verify parse db lio onum cAt body sig store).2 = store ∧
    responseStatus (POST verify parse db lio onum cAt body sig store).1
      = 400 := by
  rcases h with h | h
  · subst h; simp [POST, responseStatus]
  · cases sig with
    | none => simp [POST, responseStatus]
    | some s => simp [POST, h s rfl, responseStatus]

/-- C3 witness: a concrete tampered request (the verifier rejects the
body) is answered 400 with the store unchanged. -/
theorem webhook_rejects_bad_signature_no_side_effects_witness :
    (POST (fun _ _ => false) (fun _ => none) dbOk (fun _ => []) "o" "t"
        "body" (some "sig") ⟨[], [], []⟩).2 = ⟨[], [], []⟩ ∧
    responseStatus (POST (fun _ _ => false) (fun _ => none) dbOk
        (fun _ => []) "o" "t" "body" (some "sig") ⟨[], [], []⟩).1 = 400 :=
  webhook_rejects_bad_signature_no_side_effects _ _ _ _ _ _ _ _ _
    (Or.inr (fun _ _ => rfl))

/-- C4: the webhook response contract.  Missing header, failed
verification or an unparseable body → 400 (no redelivery of
un-retryable requests); an event of any other kind → 200; a
deduplicated delivery → 200; any error thrown during order
materialization or the stock transaction escapes the route → 500, so
the provider redelivers. -/
theorem webhook_response_contract (verify : String → String → Bool)
    (parse : String → Option StripeEvent) (db : DbBehavior)
    (lio : String → List SLineItem) (onum cAt body : String)
    (store : Store) :
    (responseStatus (POST verify parse db lio onum cAt body none store).1
        = 400)
    ∧ (∀ s, verify body s = false →
        responseStatus
          (POST verify parse db lio onum cAt body (some s) store).1 = 400)
    ∧ (∀ s, verify body s = true → parse body = none →
        responseStatus
          (POST verify parse db lio onum cAt body (some s) store).1 = 400)
    ∧ (∀ s t, verify body s = true → parse body = some (.otherEvent t) →
        responseStatus
          (POST verify parse db lio onum cAt body (some s) store).1 = 200)
    ∧ (∀ s sess o, verify body s = true →
        parse body = some (.checkoutCompleted sess) → db.fetchOk = true →
        findOrderByPaymentId store.orders sess.payment_intent = some o →
        responseStatus
          (POST verify parse db lio onum cAt body (some s) store).1 = 200)
    ∧ (∀ s sess store1 e, verify body s = true →
        parse body = some (.checkoutCompleted sess) →
        handleCheckoutCompleted db lio onum cAt sess store = (store1, some e) →
        responseStatus
          (POST verify parse db lio onum cAt body (some s) store).1
          = 500) := by
  refine ⟨by simp [POST, responseStatus], fun s hv => ?_, fun s hv hp => ?_,
    fun s t hv hp => ?_, fun s sess o hv hp hf hx => ?_,
    fun s sess store1 e hv hp hh => ?_⟩
  · simp [POST, hv, responseStatus]
  · simp [POST, hv, hp, responseStatus]
  · simp [POST, hv, hp, responseStatus]
  · simp [POST, hv, hp, handle_dedup db lio onum cAt sess store o hf hx,
      responseStatus]
  · simp [POST, hv, hp, hh, responseStatus]

/-- C4 witness: concrete requests hitting the 400, 200 (ignored kind),
200 (deduplicated) and 500 (failing store write) branches. -/
theorem webhook_response_contract_witness :
    (responseStatus (POST (fun _ _ => false) (fun _ => none) dbOk
        (fun _ => []) "o" "t" "b" (some "s")
        ⟨[], [], []⟩).1 = 400)
    ∧ (responseStatus (POST (fun _ _ => true)
        (fun _ => some (.otherEvent "charge.refunded")) dbOk (fun _ => [])
        "o" "t" "b" (some "s") ⟨[], [], []⟩).1 = 200)
    ∧ (responseStatus (POST (fun _ _ => true)
        (fun _ => some (.checkoutCompleted
          ⟨"cs", "pi", none, none, none⟩))
        ⟨true, false, true⟩ (fun _ => []) "o" "t" "b" (some "s")
        ⟨[⟨"n", none, "u", "e", [], 0, "paid", "pi", none, "t"⟩], [], []⟩).1
        = 200)
    ∧ (responseStatus (POST (fun _ _ => true)
        (fun _ => some (.checkoutCompleted
          ⟨"cs", "pi", some ⟨some "u", none, none, some "p1", some "1"⟩,
            none, none⟩))
        ⟨true, false, true⟩ (fun _ => []) "o" "t" "b" (some "s")
        ⟨[], [], []⟩).1 = 500) :=
  ⟨(webhook_response_contract (fun _ _ => false) (fun _ => none) dbOk
      (fun _ => []) "o" "t" "b" ⟨[], [], []⟩).2.1 "s" rfl,
   (webhook_response_contract (fun _ _ => true)
      (fun _ => some (.otherEvent "charge.refunded")) dbOk (fun _ => [])
      "o" "t" "b" ⟨[], [], []⟩).2.2.2.1 "s" "charge.refunded" rfl rfl,
   (webhook_response_contract (fun _ _ => true)
      (fun _ => some (.checkoutCompleted ⟨"cs", "pi", none, none, none⟩))
      ⟨true, false, true⟩ (fun _ => []) "o" "t" "b"
      ⟨[⟨"n", none, "u", "e", [], 0, "paid", "pi", none, "t"⟩], [],
        []⟩).2.2.2.2.1 "s" ⟨"cs", "pi", none, none, none⟩
      ⟨"n", none, "u", "e", [], 0, "paid", "pi", none, "t"⟩ rfl rfl rfl
      (by decide),
   (webhook_response_contract (fun _ _ => true)
      (fun _ => some (.checkoutCompleted
        ⟨"cs", "pi", some ⟨some "u", none, none, some "p1", some "1"⟩,
          none, none⟩))
      ⟨true, false, true⟩ (fun _ => []) "o" "t" "b"
      ⟨[], [], []⟩).2.2.2.2.2 "s"
      ⟨"cs", "pi", some ⟨some "u", none, none, some "p1", some "1"⟩,
        none, none⟩
      ⟨[], [], []⟩ .createFailed rfl rfl (by decide)⟩

/-- C5 counterexample: a verified checkout-completed event whose
metadata has `clerkUserId`, `productIds` and `quantities` but **no**
`userEmail` and **no** `sanityCustomerId` is not aborted: the handler
still creates the order (the code only checks the first three fields),
contradicting the claim that the absence of any of the five required
fields aborts with no order created. -/
theorem missing_email_metadata_still_creates_order :
    ((⟨some "u1", none, none, some "p1", some "1"⟩ :
        SessionMetadata).userEmail = none)
    ∧ ((⟨some "u1", none, none, some "p1", some "1"⟩ :
        SessionMetadata).sanityCustomerId = none)
    ∧ (handleCheckoutCompleted dbOk (fun _ => [⟨1000⟩]) "ORD-1" "t0"
        ⟨"cs_2", "pi_2", some ⟨some "u1", none, none, some "p1", some "1"⟩,
          some 1000, none⟩
        ⟨[], [⟨"p1", some "Chair", some 10, some 5, none⟩],
          []⟩).1.orders.length = 1 := by
  exact ⟨rfl, rfl, by decide⟩

/-- C5 (amended): on a verified checkout-completed event with no
existing order, the handler aborts with no order created and no stock
modified when `clerkUserId`, `productIds` or `quantities` is absent from
the session metadata (JS-falsy: missing or empty); a missing
`userEmail` falls back to the customer details or `""`, and a missing
`sanityCustomerId` merely omits the customer reference, neither aborts. -/
theorem malformed_metadata_aborts_without_side_effects (db : DbBehavior)
    (lio : String → List SLineItem) (onum cAt : String)
    (sess : CheckoutSessionObj) (store : Store)
    (hf : db.fetchOk = true)
    (hno : findOrderByPaymentId store.orders sess.payment_intent = none)
    (hmal : strFalsy (metaOf sess).clerkUserId = true
      ∨ strFalsy (metaOf sess).productIds = true
      ∨ strFalsy (metaOf sess).quantities = true) :
    handleCheckoutCompleted db lio onum cAt sess store = (store, none) := by
  unfold handleCheckoutCompleted
  rcases hmal with h | h | h <;> simp [hf, hno, h]

/-- C5 witness: a concrete event with an empty `productIds` metadata
field is dropped with no state change. -/
theorem malformed_metadata_aborts_without_side_effects_witness :
    handleCheckoutCompleted dbOk (fun _ => []) "ORD-1" "t0"
      ⟨"cs", "pi", some ⟨some "u1", some "e", some "c", some "", some "1"⟩,
        some 1000, none⟩
      ⟨[], [⟨"p1", some "Chair", some 10, some 5, none⟩], []⟩ =
      (⟨[], [⟨"p1", some "Chair", some 10, some 5, none⟩], []⟩, none) :=
  malformed_metadata_aborts_without_side_effects dbOk (fun _ => []) "ORD-1"
    "t0" _ _ rfl rfl (Or.inr (Or.inl rfl))

/-- C10: `getCheckoutSession` enforces ownership.  An unauthenticated
caller gets the structured `Not authenticated` failure; an authenticated
caller whose user id differs from the session metadata's `clerkUserId`
gets the structured `Session not found` failure carrying no session
data; the details are returned exactly when the caller is authenticated
and the ids match. -/
theorem getCheckoutSession_enforces_ownership (auth : Option String)
    (sessions : List RetrievedSession) (sid : String) :
    (strFalsy auth = true →
      getCheckoutSession auth sessions sid = .failure "Not authenticated")
    ∧ (∀ u s, auth = some u → strFalsy auth = false →
        sessions.find? (fun s => s.id = sid) = some s →
        (s.metadata.bind (fun m => m.clerkUserId)) ≠ some u →
        getCheckoutSession auth sessions sid = .failure "Session not found")
    ∧ (∀ u s, auth = some u → strFalsy auth = false →
        sessions.find? (fun s => s.id = sid) = some s →
        (s.metadata.bind (fun m => m.clerkUserId)) = some u →
        getCheckoutSession auth sessions sid
          = .success (mapSessionDetails s))
    ∧ (∀ d, getCheckoutSession auth sessions sid = .success d →
        ∃ u s, auth = some u ∧ strFalsy auth = false ∧
          sessions.find? (fun s => s.id = sid) = some s ∧
          (s.metadata.bind (fun m => m.clerkUserId)) = some u ∧
          d = mapSessionDetails s) := by
  refine ⟨fun h => by simp [getCheckoutSession, h],
    fun u s hu hfal hfind hne => ?_, fun u s hu hfal hfind heq => ?_,
    fun d hd => ?_⟩
  · subst hu; simp [getCheckoutSession, hfal, hfind, hne]
  · subst hu; simp [getCheckoutSession, hfal, hfind, heq]
  · by_cases hfal : strFalsy auth = true
    · simp [getCheckoutSession, hfal] at hd
    · rw [Bool.not_eq_true] at hfal
      cases auth with
      | none => simp [strFalsy] at hfal
      | some u =>
        cases hfind : sessions.find? (fun s => s.id = sid) with
        | none => simp [getCheckoutSession, hfal, hfind] at hd
        | some s =>
          by_cases hown :
              (s.metadata.bind (fun m => m.clerkUserId)) = some u
          · have hs : getCheckoutSession (some u) sessions sid
                = .success (mapSessionDetails s) := by
              simp [getCheckoutSession, hfal, hfind, hown]
            rw [hs] at hd
            injection hd with hd
            exact ⟨u, s, rfl, hfal, rfl, hown, hd.symm⟩
          · simp [getCheckoutSession, hfal, hfind, hown] at hd

/-- A concrete retrieved session owned by `u1`, used below. -/
def sampleRSession : RetrievedSession :=
  ⟨"cs", some ⟨some "u1", none, none, none, none⟩, some 1000, "paid",
    none, none⟩

/-- C10 witness: a concrete store with one session owned by `u1`: the
owner gets the details, a stranger gets `Session not found`, an
anonymous caller gets `Not authenticated`. -/
theorem getCheckoutSession_enforces_ownership_witness :
    (getCheckoutSession none [sampleRSession] "cs"
        = .failure "Not authenticated")
    ∧ (getCheckoutSession (some "u2") [sampleRSession] "cs"
        = .failure "Session not found")
    ∧ (getCheckoutSession (some "u1") [sampleRSession] "cs"
        = .success (mapSessionDetails sampleRSession)) :=
  ⟨(getCheckoutSession_enforces_ownership none [sampleRSession] "cs").1 rfl,
   (getCheckoutSession_enforces_ownership (some "u2") [sampleRSession]
       "cs").2.1 "u2" sampleRSession rfl rfl (by decide) (by decide),
   (getCheckoutSession_enforces_ownership (some "u1") [sampleRSession]
       "cs").2.2.1 "u1" sampleRSession rfl rfl (by decide) (by decide)⟩

theorem itemError_congr (products : List Product) {a b : CartItem}
    (h1 : a.productId = b.productId) (h2 : a.name = b.name)
    (h3 : a.quantity = b.quantity) :
    itemError products a = itemError products b := by
  unfold itemError
  rw [h1, h2, h3]

theorem itemOk_congr (products : List Product) {a b : CartItem}
    (h1 : a.productId = b.productId) (h3 : a.quantity = b.quantity) :
    itemOk products a = itemOk products b := by
  unfold itemOk
  rw [h1, h3]

theorem validate_congr (products : List Product) :
    ∀ {items₁ items₂ : List CartItem},
    items₁.map (fun i => (i.productId, i.name, i.quantity)) =
      items₂.map (fun i => (i.productId, i.name, i.quantity)) →
    validateItems products items₁ = validateItems products items₂ := by
  intro items₁
  induction items₁ with
  | nil =>
    intro items₂ hsame
    cases items₂ with
    | nil => rfl
    | cons b t => simp at hsame
  | cons a t ih =>
    intro items₂ hsame
    cases items₂ with
    | nil => simp at hsame
    | cons b t2 =>
      simp only [List.map_cons, List.cons.injEq, Prod.mk.injEq] at hsame
      obtain ⟨⟨h1, h2, h3⟩, htail⟩ := hsame
      have hrec := @ih t2 (by
        simpa only [List.map_cons] using congrArg id htail)
      rw [validateItems_eq, validateItems_eq] at hrec ⊢
      simp only [List.filterMap_cons]
      rw [itemError_congr products h1 h2 h3, itemOk_congr products h1 h3]
      rw [Prod.mk.injEq] at hrec
      cases itemError products b <;> cases itemOk products b <;>
        simp [hrec.1, hrec.2]

/-- C7: the cart validator records `ProductUnavailable` when no snapshot
matches, `OutOfStock` when the snapshot stock is 0, `InsufficientStock`
when the requested quantity exceeds it; every failing item of the batch
contributes its error, in cart order (no short-circuit), and
`createCheckoutSession` returns them joined as one structured failure
result rather than throwing. -/
theorem cart_validation_collects_all_failures (products : List Product)
    (items : List CartItem) :
    ((validateItems products items).1
        = items.filterMap (itemError products))
    ∧ (∀ item : CartItem,
        (findProduct products item.productId = none →
          itemError products item
            = some (.productUnavailable item.name))
        ∧ (∀ p, findProduct products item.productId = some p →
            p.stock.getD 0 = 0 →
            itemError products item = some (.outOfStock p.name))
        ∧ (∀ p, findProduct products item.productId = some p →
            p.stock.getD 0 ≠ 0 → (item.quantity : Int) > p.stock.getD 0 →
            itemError products item
              = some (.insufficientStock p.stock p.name)))
    ∧ (∀ (userId : String) (u : UserInfo) (catalog : List Product)
        (env : Env) (st : CustState),
        userId ≠ "" → items ≠ [] →
        productsByIds catalog (items.map (fun i => i.productId))
          = products →
        (validateItems products items).1 ≠ [] →
        createCheckoutSession (some userId) (some u) catalog env items st
          = (.failure (String.intercalate ". "
              (((validateItems products items).1).map
                ValidationError.message)), st)) := by
  refine ⟨by rw [validateItems_eq], fun item => ⟨fun hn => ?_,
    fun p hp h0 => ?_, fun p hp h0 hq => ?_⟩,
    fun userId u catalog env st hu hits hprod hne => ?_⟩
  · unfold itemError; rw [hn]
  · unfold itemError; rw [hp]; simp [h0]
  · unfold itemError; rw [hp]; simp [h0, hq]
  · unfold createCheckoutSession
    rw [hprod]
    simp [hu, hits, hne]

/-- C7 witness: a three-item cart hitting all three failure kinds at
once; the checkout call returns the single joined structured error. -/
theorem cart_validation_collects_all_failures_witness :
    ((validateItems [⟨"p2", some "Sofa", some 50, some 0, none⟩,
        ⟨"p3", some "Desk", some 20, some 2, none⟩]
        [⟨"p1", "Chair", 10, 1, none⟩, ⟨"p2", "Sofa", 50, 1, none⟩,
         ⟨"p3", "Desk", 20, 5, none⟩]).1
      = [.productUnavailable "Chair", .outOfStock (some "Sofa"),
         .insufficientStock (some 2) (some "Desk")])
    ∧ (createCheckoutSession (some "u1") (some ⟨["a@x"], some "A", none⟩)
        [⟨"p2", some "Sofa", some 50, some 0, none⟩,
         ⟨"p3", some "Desk", some 20, some 2, none⟩] ⟨none, none⟩
        [⟨"p1", "Chair", 10, 1, none⟩, ⟨"p2", "Sofa", 50, 1, none⟩,
         ⟨"p3", "Desk", 20, 5, none⟩] ⟨[], [], 0, 0⟩
        = (.failure ("Product \"Chair\" is no longer available. \"Sofa\" is out of stock. Only 2 of \"Desk\" available"), ⟨[], [], 0, 0⟩)) := by
  have h := cart_validation_collects_all_failures
    [⟨"p2", some "Sofa", some 50, some 0, none⟩,
     ⟨"p3", some "Desk", some 20, some 2, none⟩]
    [⟨"p1", "Chair", 10, 1, none⟩, ⟨"p2", "Sofa", 50, 1, none⟩,
     ⟨"p3", "Desk", 20, 5, none⟩]
  refine ⟨by rw [h.1]; decide, ?_⟩
  rw [h.2.2 "u1" ⟨["a@x"], some "A", none⟩ _ ⟨none, none⟩ ⟨[], [], 0, 0⟩
    (by decide) (by decide) (by decide) (by decide)]
  decide

/-- Projection used to state the line-item amounts of an outcome. -/
def outcomeLineAmounts : CheckoutOutcome → Option (List Int)
  | .failure _ => none
  | .sessionRequest p => some (p.line_items.map (fun li => li.unit_amount))

/-- C6: the client-claimed price is discarded: two carts equal except in
the client-supplied price field produce the very same checkout outcome
(in particular identical session line-item amounts); and each session
line item's `unit_amount` is `Math.round`(authoritative snapshot price ×
100) — round-half-up for these non-negative prices. -/
theorem checkout_price_from_snapshot_only (auth : Option String)
    (user : Option UserInfo) (catalog : List Product) (env : Env)
    (items₁ items₂ : List CartItem) (st : CustState)
    (hsame : items₁.map (fun i => (i.productId, i.name, i.quantity))
           = items₂.map (fun i => (i.productId, i.name, i.quantity))) :
    (createCheckoutSession auth user catalog env items₁ st
      = createCheckoutSession auth user catalog env items₂ st)
    ∧ (∀ (userId : String) (u : UserInfo), auth = some userId →
        user = some u → userId ≠ "" → items₁ ≠ [] →
        (validateItems (productsByIds catalog
            (items₁.map (fun i => i.productId))) items₁).1 = [] →
        outcomeLineAmounts
            (createCheckoutSession auth user catalog env items₁ st).1
          = some (((validateItems (productsByIds catalog
                (items₁.map (fun i => i.productId))) items₁).2).map
              (fun v => jsRound ((v.product.price.getD 0) * 100)))) := by
  constructor
  · unfold createCheckoutSession
    cases auth with
    | none => rfl
    | some uid =>
      cases user with
      | none => rfl
      | some u =>
        by_cases hu : uid = ""
        · simp [hu]
        · have hpid : items₁.map (fun i => i.productId)
              = items₂.map (fun i => i.productId) := by
            have := congrArg (List.map Prod.fst) hsame
            simpa [List.map_map, Function.comp] using this
          have hlen : items₁ = [] ↔ items₂ = [] := by
            constructor <;> intro h <;> subst h
            · exact List.map_eq_nil_iff.mp hsame.symm
            · exact List.map_eq_nil_iff.mp hsame
          by_cases hn : items₁ = []
          · have hn2 : items₂ = [] := hlen.mp hn
            simp [hu, hn, hn2]
          · have hn2 : ¬ items₂ = [] := fun h => hn (hlen.mpr h)
            have hval := validate_congr
              (productsByIds catalog (items₁.map (fun i => i.productId)))
              hsame
            simp only [hu, hn, hn2, if_neg, ite_false, if_false]
            rw [hpid] at hval ⊢
            rw [hval]
  · intro userId u hau husr hu hn hok
    subst hau; subst husr
    unfold createCheckoutSession
    simp only [hu, hn, hok, ite_false, ite_true, if_neg, if_pos]
    simp [outcomeLineAmounts, hok, List.map_map, toStripeLineItem,
      Function.comp]

/-- C6 witness: two one-item carts whose client prices differ wildly
(9.99 claimed vs 0.01 claimed, snapshot price 10.99) yield the same
outcome, and the line amount is round-half-up(10.99 × 100) = 1099. -/
theorem checkout_price_from_snapshot_only_witness :
    (createCheckoutSession (some "u1") (some ⟨["a@x"], some "A", none⟩)
        [⟨"p1", some "Chair", some (1099/100 : ℚ), some 5, none⟩]
        ⟨none, none⟩ [⟨"p1", "Chair", 999/100, 2, none⟩] ⟨[], [], 0, 0⟩
      = createCheckoutSession (some "u1") (some ⟨["a@x"], some "A", none⟩)
        [⟨"p1", some "Chair", some (1099/100 : ℚ), some 5, none⟩]
        ⟨none, none⟩ [⟨"p1", "Chair", 1/100, 2, none⟩] ⟨[], [], 0, 0⟩)
    ∧ (outcomeLineAmounts
        (createCheckoutSession (some "u1") (some ⟨["a@x"], some "A", none⟩)
          [⟨"p1", some "Chair", some (1099/100 : ℚ), some 5, none⟩]
          ⟨none, none⟩ [⟨"p1", "Chair", 999/100, 2, none⟩]
          ⟨[], [], 0, 0⟩).1
      = some [1099]) := by
  have h := checkout_price_from_snapshot_only (some "u1")
    (some ⟨["a@x"], some "A", none⟩)
    [⟨"p1", some "Chair", some (1099/100 : ℚ), some 5, none⟩]
    ⟨none, none⟩ [⟨"p1", "Chair", 999/100, 2, none⟩]
    [⟨"p1", "Chair", 1/100, 2, none⟩] ⟨[], [], 0, 0⟩ (by decide)
  refine ⟨h.1, ?_⟩
  rw [h.2 "u1" ⟨["a@x"], some "A", none⟩ rfl rfl (by decide) (by decide)
    (by decide)]
  have hval : (validateItems (productsByIds
      [⟨"p1", some "Chair", some (1099/100 : ℚ), some 5, none⟩]
      (List.map (fun i => i.productId)
        ([⟨"p1", "Chair", 999/100, 2, none⟩] : List CartItem)))
      ([⟨"p1", "Chair", 999/100, 2, none⟩] : List CartItem)).2
      = [⟨⟨"p1", some "Chair", some (1099/100 : ℚ), some 5, none⟩, 2⟩] :=
    rfl
  rw [hval]
  simp only [List.map_cons, List.map_nil, Option.getD_some, Option.some_inj]
  norm_num [jsRound]

theorem natDigitsAux_eq (fuel n : Nat) (h : n ≤ fuel) :
    natDigitsAux fuel n = Nat.digits 10 n := by
  induction fuel generalizing n with
  | zero =>
    have : n = 0 := Nat.le_zero.mp h
    subst this
    simp [natDigitsAux]
  | succ f ih =>
    cases n with
    | zero => simp [natDigitsAux]
    | succ m =>
      rw [natDigitsAux, ih ((m + 1) / 10)
        (by
          have := Nat.div_lt_self (Nat.succ_pos m) (by norm_num : 1 < 10)
          omega),
        ← Nat.digits_def' (by norm_num : 1 < 10) (Nat.succ_pos m)]

theorem foldr_digitChar_eq (l : List Nat)
    (h : ∀ d ∈ l, (Nat.digitChar d).toNat - 48 = d) :
    l.foldr (fun d a => a * 10 + ((Nat.digitChar d).toNat - 48)) 0
      = Nat.ofDigits 10 l := by
  induction l with
  | nil => simp [Nat.ofDigits]
  | cons d t ih =>
    simp only [List.foldr_cons, Nat.ofDigits_cons]
    rw [ih (fun x hx => h x (List.mem_cons_of_mem _ hx)),
      h d (List.mem_cons_self _ _)]
    ring

/-- Decoding inverts rendering: `Number` applied to the decimal string
of `n` gives back `n`. -/
theorem parseDigits_natToChars (n : Nat) :
    parseDigits (natToChars n) = n := by
  unfold natToChars parseDigits
  by_cases h : n = 0
  · subst h; decide
  · rw [if_neg h, natDigitsAux_eq n n le_rfl, List.foldl_reverse,
      List.foldr_map]
    have hlt : ∀ d ∈ Nat.digits 10 n, (Nat.digitChar d).toNat - 48 = d := by
      intro d hd
      have h10 : d < 10 := Nat.digits_lt_base (by norm_num) hd
      have : ∀ d', d' < 10 → (Nat.digitChar d').toNat - 48 = d' := by decide
      exact this d h10
    rw [foldr_digitChar_eq (Nat.digits 10 n) hlt]
    exact_mod_cast Nat.ofDigits_digits 10 n

/-- The decimal rendering of a number never contains the separator. -/
theorem comma_not_mem_natToChars (n : Nat) : ',' ∉ natToChars n := by
  unfold natToChars
  by_cases h : n = 0
  · rw [if_pos h]; decide
  · rw [if_neg h, natDigitsAux_eq n n le_rfl]
    intro hmem
    rw [List.mem_reverse, List.mem_map] at hmem
    obtain ⟨d, hd, hEq⟩ := hmem
    have h10 : d < 10 := Nat.digits_lt_base (by norm_num) hd
    have : ∀ d', d' < 10 → Nat.digitChar d' ≠ ',' := by decide
    exact this d h10 hEq

/-- `split(",")` inverts `join(",")` for a nonempty list of comma-free
strings. -/
theorem jsSplit_jsJoin (l : List String) (hne : l ≠ [])
    (hfree : ∀ s ∈ l, ',' ∉ s.data) :
    jsSplitComma (jsJoinComma l) = l := by
  unfold jsSplitComma jsJoinComma
  rw [show (String.mk (List.intercalate [','] (l.map String.data))).data
      = List.intercalate [','] (l.map String.data) from rfl]
  rw [List.splitOn_intercalate (l.map String.data) ','
    (by
      intro cs hcs
      obtain ⟨s, hs, rfl⟩ := List.mem_map.mp hcs
      exact hfree s hs)
    (fun hmap => hne (List.map_eq_nil_iff.mp hmap))]
  rw [List.map_map]
  have hid : ((fun cs => (⟨cs⟩ : String)) ∘ String.data) = id :=
    funext (fun s => by cases s; rfl)
  rw [hid, List.map_id]

/-- The webhook's decoding of the two metadata strings
(`route.ts` lines 133–134) together with its positional pairing of
product id and quantity (as used for the order items and the stock
patches). -/
def decodeMetaPairs (pidsStr qtysStr : String) : List (String × Nat) :=
  let productIds := jsSplitComma pidsStr
  let quantities :=
    (jsSplitComma qtysStr).map (fun s => parseDigits s.data)
  (List.range productIds.length).map (fun i =>
    (productIds.getD i "", quantities.getD i 0))

theorem range_pair_getD {α : Type _} (f : α → String) (g : α → Nat)
    (l : List α) :
    (List.range (l.map f).length).map (fun i =>
        ((l.map f).getD i "", (l.map g).getD i 0))
      = l.map (fun a => (f a, g a)) := by
  apply List.ext_getElem
  · simp
  · intro i h1 h2
    have hi : i < l.length := by simpa using h2
    have hif : i < (l.map f).length := by simpa using hi
    have hig : i < (l.map g).length := by simpa using hi
    simp [List.getElem_map, List.getElem_range,
      List.getD_eq_getElem _ _ hif, List.getD_eq_getElem _ _ hig,
      List.getElem?_eq_getElem hi]

/-- C8 counterexample: a validated cart whose (single) product id
contains a comma does not round-trip: encoding then decoding the
metadata yields `[("a", 1), ("b", 0)]`, not the original pair
`("a,b", 1)`. -/
theorem metadata_roundtrip_fails_on_comma_id :
    decodeMetaPairs
      (((buildMetadata "u1" "a@x" "c1"
          [⟨⟨"a,b", some "X", some 1, some 5, none⟩, 1⟩]).productIds).getD "")
      (((buildMetadata "u1" "a@x" "c1"
          [⟨⟨"a,b", some "X", some 1, some 5, none⟩, 1⟩]).quantities).getD "")
      ≠ [("a,b", 1)] := by decide

/-- C8 (amended): for every nonempty validated cart whose product ids
are comma-free (in particular every cart of Sanity document ids),
encoding the product ids and quantities as the comma-joined metadata
strings and decoding them in the webhook handler yields exactly the
original positionally aligned (productId, quantity) pairs, in order.
A product id containing a comma breaks the round-trip. -/
theorem metadata_roundtrip_comma_free (userId userEmail scid : String)
    (vs : List ValidatedItem) (hne : vs ≠ [])
    (hfree : ∀ v ∈ vs, ',' ∉ (v.product.id).data) :
    decodeMetaPairs
      (((buildMetadata userId userEmail scid vs).productIds).getD "")
      (((buildMetadata userId userEmail scid vs).quantities).getD "")
      = vs.map (fun v => (v.product.id, v.quantity)) := by
  unfold buildMetadata decodeMetaPairs
  simp only [Option.getD_some]
  rw [jsSplit_jsJoin (vs.map (fun v => v.product.id))
      (fun hmap => hne (List.map_eq_nil_iff.mp hmap))
      (by
        intro s hs
        obtain ⟨v, hv, rfl⟩ := List.mem_map.mp hs
        exact hfree v hv),
    jsSplit_jsJoin (vs.map (fun v => natToString v.quantity))
      (fun hmap => hne (List.map_eq_nil_iff.mp hmap))
      (by
        intro s hs
        obtain ⟨v, hv, rfl⟩ := List.mem_map.mp hs
        exact comma_not_mem_natToChars v.quantity)]
  have hq : (vs.map (fun v => natToString v.quantity)).map
      (fun s => parseDigits s.data) = vs.map (fun v => v.quantity) := by
    rw [List.map_map]
    exact List.map_congr_left (fun v _ => parseDigits_natToChars v.quantity)
  rw [hq]
  exact range_pair_getD (fun v => v.product.id) (fun v => v.quantity) vs

/-- C8 witness: the spec's own instance — three distinct products with
quantities [2, 1, 4] round-trip exactly. -/
theorem metadata_roundtrip_comma_free_witness :
    decodeMetaPairs
      (((buildMetadata "u1" "a@x" "c1"
          [⟨⟨"p1", some "A", some 10, some 9, none⟩, 2⟩,
           ⟨⟨"p2", some "B", some 20, some 9, none⟩, 1⟩,
           ⟨⟨"p3", some "C", some 30, some 9, none⟩, 4⟩]).productIds).getD "")
      (((buildMetadata "u1" "a@x" "c1"
          [⟨⟨"p1", some "A", some 10, some 9, none⟩, 2⟩,
           ⟨⟨"p2", some "B", some 20, some 9, none⟩, 1⟩,
           ⟨⟨"p3", some "C", some 30, some 9, none⟩, 4⟩]).quantities).getD "")
      = [("p1", 2), ("p2", 1), ("p3", 4)] := by
  rw [metadata_roundtrip_comma_free "u1" "a@x" "c1"
    [⟨⟨"p1", some "A", some 10, some 9, none⟩, 2⟩,
     ⟨⟨"p2", some "B", some 20, some 9, none⟩, 1⟩,
     ⟨⟨"p3", some "C", some 30, some 9, none⟩, 4⟩]
    (by decide) (by decide)]
  decide

theorem stripeLookupOrCreate_sanity (email name uid : String)
    (st : CustState) :
    (stripeLookupOrCreate email name uid st).2.sanity = st.sanity := by
  unfold stripeLookupOrCreate
  cases st.stripe.find? (fun c => c.email = email) <;> rfl

theorem find?_email_map (l : List SanityCustomer) (email : String)
    (g : SanityCustomer → SanityCustomer)
    (hg : ∀ d, (g d).email = d.email) :
    (l.map g).find? (fun c => c.email = email)
      = (l.find? (fun c => c.email = email)).map g := by
  rw [List.find?_map]
  have hfun : ((fun c => decide (c.email = email)) ∘ g)
      = (fun c : SanityCustomer => decide (c.email = email)) :=
    funext (fun d => by simp [Function.comp, hg d])
  rw [hfun]

/-- C9 counterexample: the tier-1 lookup is keyed on **email**, not on
the buyer's external identity.  Two sequential calls for the same buyer
`u1` (the second after an email change) return different
`stripeCustomerId`s and leave **two** customer records for `u1` in each
store, refuting "repeated calls for the same buyer return the same
stripeCustomerId and create at most one customer record in each
store". -/
theorem customer_resolution_not_keyed_on_external_identity :
    ((getOrCreateStripeCustomer "b@x" "N" "u1"
        (getOrCreateStripeCustomer "a@x" "N" "u1" ⟨[], [], 0, 0⟩).2).1.1
      ≠ (getOrCreateStripeCustomer "a@x" "N" "u1" ⟨[], [], 0, 0⟩).1.1)
    ∧ (((getOrCreateStripeCustomer "b@x" "N" "u1"
        (getOrCreateStripeCustomer "a@x" "N" "u1" ⟨[], [], 0, 0⟩).2).2.sanity.filter
          (fun c => c.clerkUserId = "u1")).length = 2)
    ∧ (((getOrCreateStripeCustomer "b@x" "N" "u1"
        (getOrCreateStripeCustomer "a@x" "N" "u1" ⟨[], [], 0, 0⟩).2).2.stripe.filter
          (fun c => c.metaClerkUserId = some "u1")).length = 2) := by
  decide

/-- C9 (amended): `getOrCreateStripeCustomer` resolves in three tiers —
lookup **by email** in the Content Store, then lookup by email in the
Payment Provider, then creation in the Payment Provider — followed by an
upsert of the link record in the Content Store.  Repeated calls with the
same `(email, name, clerkUserId)` arguments return the same ids and
leave the stores unchanged after the first call, and a call after a
partial prior failure (Stripe record exists, Sanity link missing)
returns that Stripe customer's id without creating another Stripe
record. -/
theorem customer_resolution_email_keyed_idempotent
    (email name uid : String) (st : CustState) :
    (getOrCreateStripeCustomer email name uid
        (getOrCreateStripeCustomer email name uid st).2
      = ((getOrCreateStripeCustomer email name uid st).1,
         (getOrCreateStripeCustomer email name uid st).2))
    ∧ (fetchCustomerByEmail st email = none →
        ∀ c, st.stripe.find? (fun c => c.email = email) = some c →
          (getOrCreateStripeCustomer email name uid st).1.1 = c.id
          ∧ (getOrCreateStripeCustomer email name uid st).2.stripe
              = st.stripe) := by
  constructor
  · cases hfetch : fetchCustomerByEmail st email with
    | some c =>
      cases hsc : c.stripeCustomerId with
      | some sc =>
        simp [getOrCreateStripeCustomer, hfetch, hsc]
      | none =>
        have hg : ∀ d : SanityCustomer,
            ((fun d => if d.id = c.id then
                { d with
                  stripeCustomerId :=
                    some (stripeLookupOrCreate email name uid st).1,
                  clerkUserId := uid, name := name }
              else d) d).email = d.email := by
          intro d
          by_cases h : d.id = c.id <;> simp [h]
        have hc_email : c.email = email := by
          have := List.find?_some hfetch
          simpa using this
        have hfetch2 : fetchCustomerByEmail
            ⟨(stripeLookupOrCreate email name uid st).2.sanity.map
              (fun d => if d.id = c.id then
                { d with
                  stripeCustomerId :=
                    some (stripeLookupOrCreate email name uid st).1,
                  clerkUserId := uid, name := name }
              else d),
             (stripeLookupOrCreate email name uid st).2.stripe,
             (stripeLookupOrCreate email name uid st).2.sanityCtr,
             (stripeLookupOrCreate email name uid st).2.stripeCtr⟩ email
            = some { c with
                stripeCustomerId :=
                  some (stripeLookupOrCreate email name uid st).1,
                clerkUserId := uid, name := name } := by
          show ((stripeLookupOrCreate email name uid st).2.sanity.map _).find?
              _ = _
          rw [find?_email_map _ email _ hg,
            stripeLookupOrCreate_sanity email name uid st]
          rw [show st.sanity.find? (fun c => c.email = email)
              = some c from hfetch]
          simp
        simp only [getOrCreateStripeCustomer, hfetch, hsc]
        simp only [hfetch2]
    | none =>
      have hnew : fetchCustomerByEmail
          ⟨(stripeLookupOrCreate email name uid st).2.sanity ++
            [⟨"customer-"
                ++ natToString (stripeLookupOrCreate email name uid st).2.sanityCtr,
              email, name, uid,
              some (stripeLookupOrCreate email name uid st).1⟩],
           (stripeLookupOrCreate email name uid st).2.stripe,
           (stripeLookupOrCreate email name uid st).2.sanityCtr + 1,
           (stripeLookupOrCreate email name uid st).2.stripeCtr⟩ email
          = some ⟨"customer-"
              ++ natToString (stripeLookupOrCreate email name uid st).2.sanityCtr,
            email, name, uid,
            some (stripeLookupOrCreate email name uid st).1⟩ := by
        show (((stripeLookupOrCreate email name uid st).2.sanity ++ _).find? _)
            = _
        rw [List.find?_append, stripeLookupOrCreate_sanity email name uid st]
        rw [show st.sanity.find? (fun c => c.email = email)
            = none from hfetch]
        simp
      simp only [getOrCreateStripeCustomer, hfetch]
      simp only [hnew]
  · intro hfetch c hstripe
    simp [getOrCreateStripeCustomer, hfetch, stripeLookupOrCreate, hstripe]

/-- C9 witness: a store holding only the Stripe half of a previous
partial run — the call returns that Stripe id, creates no second Stripe
record, and a repeated call changes nothing. -/
theorem customer_resolution_email_keyed_idempotent_witness :
    (getOrCreateStripeCustomer "a@x" "N" "u1"
        (getOrCreateStripeCustomer "a@x" "N" "u1"
          ⟨[], [⟨"cus_9", "a@x", "N", none⟩], 0, 0⟩).2
      = ((getOrCreateStripeCustomer "a@x" "N" "u1"
            ⟨[], [⟨"cus_9", "a@x", "N", none⟩], 0, 0⟩).1,
         (getOrCreateStripeCustomer "a@x" "N" "u1"
            ⟨[], [⟨"cus_9", "a@x", "N", none⟩], 0, 0⟩).2))
    ∧ ((getOrCreateStripeCustomer "a@x" "N" "u1"
          ⟨[], [⟨"cus_9", "a@x", "N", none⟩], 0, 0⟩).1.1 = "cus_9"
        ∧ (getOrCreateStripeCustomer "a@x" "N" "u1"
            ⟨[], [⟨"cus_9", "a@x", "N", none⟩], 0, 0⟩).2.stripe
          = [⟨"cus_9", "a@x", "N", none⟩]) :=
  ⟨(customer_resolution_email_keyed_idempotent "a@x" "N" "u1"
      ⟨[], [⟨"cus_9", "a@x", "N", none⟩], 0, 0⟩).1,
   (customer_resolution_email_keyed_idempotent "a@x" "N" "u1"
      ⟨[], [⟨"cus_9", "a@x", "N", none⟩], 0, 0⟩).2 rfl
    ⟨"cus_9", "a@x", "N", none⟩ rfl⟩

/-- Stock of the product document `pid`, if the document exists. -/
def stockOfP (products : List Product) (pid : String) : Option Int :=
  (products.find? (fun p => p.id = pid)).bind (fun p => p.stock)

theorem find?_decStock (products : List Product) (pid' : String) (q : Nat)
    (pid : String) :
    (decStock products pid' q).find? (fun p => p.id = pid)
      = (products.find? (fun p => p.id = pid)).map (fun p =>
          if p.id = pid' then
            { p with stock := p.stock.map (fun s => s - (q : Int)) }
          else p) := by
  unfold decStock
  rw [List.find?_map]
  have hfun : ((fun p => decide (p.id = pid)) ∘ (fun p : Product =>
      if p.id = pid' then
        { p with stock := p.stock.map (fun s => s - (q : Int)) }
      else p))
      = (fun p : Product => decide (p.id = pid)) := by
    funext p
    by_cases h : p.id = pid' <;> simp [Function.comp, h]
  rw [hfun]

theorem stockOfP_decStock_ne {pid pid' : String} (products : List Product)
    (q : Nat) (h : pid ≠ pid') :
    stockOfP (decStock products pid' q) pid = stockOfP products pid := by
  unfold stockOfP
  rw [find?_decStock]
  cases hf : products.find? (fun p => p.id = pid) with
  | none => rfl
  | some p =>
    have hp : p.id = pid := by simpa using List.find?_some hf
    simp [hp, h]

theorem stockOfP_decStock_eq (products : List Product) (pid : String)
    (q : Nat) :
    stockOfP (decStock products pid q) pid
      = (stockOfP products pid).map (fun s => s - (q : Int)) := by
  unfold stockOfP
  rw [find?_decStock]
  cases hf : products.find? (fun p => p.id = pid) with
  | none => rfl
  | some p =>
    have hp : p.id = pid := by simpa using List.find?_some hf
    simp [hp]

theorem stockOfP_applyStockDec_notmem (pairs : List (String × Nat))
    (products : List Product) (pid : String)
    (h : pid ∉ pairs.map Prod.fst) :
    stockOfP (applyStockDec products pairs) pid = stockOfP products pid := by
  induction pairs generalizing products with
  | nil => rfl
  | cons pr t ih =>
    rw [show applyStockDec products (pr :: t)
        = applyStockDec (decStock products pr.1 pr.2) t from rfl]
    rw [List.map_cons] at h
    have h1 : pid ≠ pr.1 := fun hx => h (by rw [hx]; exact List.mem_cons_self _ _)
    have h2 : pid ∉ t.map Prod.fst := fun hx => h (List.mem_cons_of_mem _ hx)
    rw [ih (decStock products pr.1 pr.2) h2, stockOfP_decStock_ne _ _ h1]

theorem stockOfP_applyStockDec_mem (pairs : List (String × Nat))
    (products : List Product) (pid : String) (q : Nat)
    (hmem : (pid, q) ∈ pairs) (hnd : (pairs.map Prod.fst).Nodup) :
    stockOfP (applyStockDec products pairs) pid
      = (stockOfP products pid).map (fun s => s - (q : Int)) := by
  induction pairs generalizing products with
  | nil => cases hmem
  | cons pr t ih =>
    rw [show applyStockDec products (pr :: t)
        = applyStockDec (decStock products pr.1 pr.2) t from rfl]
    rw [List.map_cons, List.nodup_cons] at hnd
    rcases List.mem_cons.mp hmem with heq | hmem'
    · obtain ⟨hp, hq⟩ : pid = pr.1 ∧ q = pr.2 := by rw [← heq]; exact ⟨rfl, rfl⟩
      rw [stockOfP_applyStockDec_notmem t _ pid (by rw [hp]; exact hnd.1)]
      rw [hp, hq] at *
      exact stockOfP_decStock_eq products pr.1 pr.2
    · have hpidmem : pid ∈ t.map Prod.fst :=
        List.mem_map_of_mem Prod.fst hmem'
      have hne : pid ≠ pr.1 := fun h => hnd.1 (h ▸ hpidmem)
      rw [ih (decStock products pr.1 pr.2) hmem' hnd.2,
        stockOfP_decStock_ne _ _ hne]

theorem map_getD_range {α : Type _} (l : List α) (d : α) :
    (List.range l.length).map (fun i => l.getD i d) = l := by
  apply List.ext_getElem
  · simp
  · intro i h1 h2
    have hi : i < l.length := h2
    simp [List.getElem_map, List.getElem_range,
      List.getD_eq_getElem _ _ hi, List.getElem?_eq_getElem hi]

theorem pairsOf_fst (m : SessionMetadata) :
    (pairsOf m).map Prod.fst = pidsOf m := by
  unfold pairsOf
  rw [List.map_map]
  exact map_getD_range (pidsOf m) ""

theorem handle_creates (lio : String → List SLineItem) (onum cAt : String)
    (sess : CheckoutSessionObj) (store : Store)
    (h1 : strFalsy (metaOf sess).clerkUserId = false)
    (h2 : strFalsy (metaOf sess).productIds = false)
    (h3 : strFalsy (metaOf sess).quantities = false)
    (h4 : findOrderByPaymentId store.orders sess.payment_intent = none) :
    handleCheckoutCompleted dbOk lio onum cAt sess store
      = ({ orders := store.orders ++ [mkOrder lio onum cAt sess],
           products := applyStockDec store.products (pairsOf (metaOf sess)),
           customers := store.customers }, none) := by
  unfold handleCheckoutCompleted
  simp [dbOk, h4, h1, h2, h3]

theorem find?_orders_append_mk (lio : String → List SLineItem)
    (onum cAt : String) (sess : CheckoutSessionObj) (orders : List Order) :
    findOrderByPaymentId (orders ++ [mkOrder lio onum cAt sess])
        sess.payment_intent
      = (findOrderByPaymentId orders sess.payment_intent).or
          (some (mkOrder lio onum cAt sess)) := by
  unfold findOrderByPaymentId
  rw [List.find?_append]
  have hmk : List.find? (fun o => o.stripePaymentId = sess.payment_intent)
      [mkOrder lio onum cAt sess] = some (mkOrder lio onum cAt sess) :=
    List.find?_cons_of_pos _ (by simp [mkOrder])
  rw [hmk]

theorem deliver_stable (lio : String → List SLineItem) (cAt : String)
    (sess : CheckoutSessionObj) (s : Store) (rest : List String)
    (hstab : ∀ onum,
      handleCheckoutCompleted dbOk lio onum cAt sess s = (s, none)) :
    deliverRepeatedly dbOk lio rest cAt sess s = s := by
  induction rest with
  | nil => rfl
  | cons n t ih =>
    show deliverRepeatedly dbOk lio t cAt sess
        (handleCheckoutCompleted dbOk lio n cAt sess s).1 = s
    rw [hstab n]
    exact ih

/-- C1: for one `paymentId` at most one order.  Delivering the same
checkout-completed event N ≥ 1 times sequentially (fresh order number
each time, all store calls healthy) creates exactly one order, holding
the event's payment id, and decrements each (distinct) product's stock
exactly once by its ordered quantity; every delivery after the first
finds the existing order by payment id and returns leaving the store
untouched. -/
theorem payment_confirmation_idempotent (lio : String → List SLineItem)
    (cAt : String) (sess : CheckoutSessionObj) (store : Store)
    (nums : List String)
    (h1 : strFalsy (metaOf sess).clerkUserId = false)
    (h2 : strFalsy (metaOf sess).productIds = false)
    (h3 : strFalsy (metaOf sess).quantities = false)
    (h4 : findOrderByPaymentId store.orders sess.payment_intent = none)
    (hnd : (pidsOf (metaOf sess)).Nodup)
    (hne : nums ≠ []) :
    (deliverRepeatedly dbOk lio nums cAt sess store
      = (handleCheckoutCompleted dbOk lio (nums.headD "") cAt sess
          store).1)
    ∧ ((deliverRepeatedly dbOk lio nums cAt sess store).orders.filter
        (fun o => o.stripePaymentId = sess.payment_intent)).length = 1
    ∧ (deliverRepeatedly dbOk lio nums cAt sess store).orders.length
        = store.orders.length + 1
    ∧ (∀ i, i < (pidsOf (metaOf sess)).length →
        stockOfP (deliverRepeatedly dbOk lio nums cAt sess store).products
            ((pidsOf (metaOf sess)).getD i "")
          = (stockOfP store.products
              ((pidsOf (metaOf sess)).getD i "")).map
              (fun s => s - (((qtysOf (metaOf sess)).getD i 0 : Nat) : Int)))
    ∧ (∀ onum, handleCheckoutCompleted dbOk lio onum cAt sess
          (deliverRepeatedly dbOk lio nums cAt sess store)
        = (deliverRepeatedly dbOk lio nums cAt sess store, none)) := by
  obtain ⟨n0, rest, rfl⟩ : ∃ n0 rest, nums = n0 :: rest := by
    cases nums with
    | nil => exact absurd rfl hne
    | cons a t => exact ⟨a, t, rfl⟩
  have hcreate := handle_creates lio n0 cAt sess store h1 h2 h3 h4
  have hfind1 : findOrderByPaymentId
      ({ orders := store.orders ++ [mkOrder lio n0 cAt sess],
         products := applyStockDec store.products (pairsOf (metaOf sess)),
         customers := store.customers } : Store).orders sess.payment_intent
      = some (mkOrder lio n0 cAt sess) := by
    show findOrderByPaymentId (store.orders ++ [mkOrder lio n0 cAt sess])
        sess.payment_intent = _
    rw [find?_orders_append_mk, h4]
    rfl
  have hstab : ∀ onum, handleCheckoutCompleted dbOk lio onum cAt sess
      { orders := store.orders ++ [mkOrder lio n0 cAt sess],
        products := applyStockDec store.products (pairsOf (metaOf sess)),
        customers := store.customers }
      = ({ orders := store.orders ++ [mkOrder lio n0 cAt sess],
           products := applyStockDec store.products (pairsOf (metaOf sess)),
           customers := store.customers }, none) :=
    fun onum => handle_dedup dbOk lio onum cAt sess _ _ rfl hfind1
  have hdel : deliverRepeatedly dbOk lio (n0 :: rest) cAt sess store
      = { orders := store.orders ++ [mkOrder lio n0 cAt sess],
          products := applyStockDec store.products (pairsOf (metaOf sess)),
          customers := store.customers } := by
    show deliverRepeatedly dbOk lio rest cAt sess
        (handleCheckoutCompleted dbOk lio n0 cAt sess store).1 = _
    rw [hcreate]
    exact deliver_stable lio cAt sess _ rest hstab
  have hnil : store.orders.filter
      (fun o => o.stripePaymentId = sess.payment_intent) = [] := by
    rw [List.filter_eq_nil_iff]
    intro o ho
    simpa using List.find?_eq_none.mp h4 o ho
  refine ⟨?_, ?_, ?_, ?_, ?_⟩
  · simp only [List.headD_cons]
    rw [hdel, hcreate]
  · rw [hdel]
    show ((store.orders ++ [mkOrder lio n0 cAt sess]).filter
      (fun o => o.stripePaymentId = sess.payment_intent)).length = 1
    rw [List.filter_append, hnil]
    simp [mkOrder]
  · rw [hdel]
    simp
  · intro i hi
    rw [hdel]
    show stockOfP (applyStockDec store.products (pairsOf (metaOf sess)))
        ((pidsOf (metaOf sess)).getD i "") = _
    apply stockOfP_applyStockDec_mem
    · unfold pairsOf
      exact List.mem_map_of_mem _ (List.mem_range.mpr hi)
    · rw [pairsOf_fst]
      exact hnd
  · intro onum
    rw [hdel]
    exact hstab onum

/-- The concrete session of the spec's scenario: one product `p1`,
quantity 2, paid 2000 pence. -/
def sessW : CheckoutSessionObj :=
  { id := "cs_1", payment_intent := "pi_1"
    metadata := some ⟨some "u1", some "a@x", some "c1", some "p1", some "2"⟩
    amount_total := some 2000
    customer_details := none }

/-- The concrete store of the spec's scenario: `p1` in stock 5. -/
def storeW : Store :=
  { orders := [], products := [⟨"p1", some "Chair", some 10, some 5, none⟩],
    customers := [] }

/-- C1 witness: the same confirmation delivered three times creates one
order and decrements `p1`'s stock once, from 5 to 3. -/
theorem payment_confirmation_idempotent_witness :
    ((deliverRepeatedly dbOk (fun _ => [⟨2000⟩])
        ["ORD-1", "ORD-2", "ORD-3"] "t0" sessW storeW).orders.filter
        (fun o => o.stripePaymentId = sessW.payment_intent)).length = 1
    ∧ (deliverRepeatedly dbOk (fun _ => [⟨2000⟩])
        ["ORD-1", "ORD-2", "ORD-3"] "t0" sessW storeW).orders.length = 1
    ∧ stockOfP (deliverRepeatedly dbOk (fun _ => [⟨2000⟩])
        ["ORD-1", "ORD-2", "ORD-3"] "t0" sessW storeW).products "p1"
      = some 3 := by
  have h := payment_confirmation_idempotent (fun _ => [⟨2000⟩]) "t0" sessW
    storeW ["ORD-1", "ORD-2", "ORD-3"] (by decide) (by decide) (by decide)
    (by decide) (by decide) (by decide)
  exact ⟨h.2.1, h.2.2.1.trans (by decide),
    (h.2.2.2.1 0 (by decide)).trans (by decide)⟩

/-- C2: evaluation of the handler at the failing input.  For the
scenario cart (one product, unit price £10.00, quantity 2) Stripe's line
item carries `amount_total = 2000` pence — the **line** total across its
quantity — and the code stores `2000 / 100 = 20` as `priceAtPurchase`.
The created order therefore has `total = 20` while
`Σ priceAtPurchase × quantity = 40`: the claimed invariant
`order.total = Σ lineItem.priceAtPurchase × lineItem.quantity` fails for
any quantity ≥ 2. -/
theorem order_total_departs_from_item_sum :
    ((handleCheckoutCompleted dbOk (fun _ => [⟨2000⟩]) "ORD-1" "t0" sessW
        storeW).1.orders.map (fun o =>
          (o.total,
           (o.items.map (fun it =>
              it.priceAtPurchase * (it.quantity : ℚ))).sum)))
      = [((20 : ℚ), (40 : ℚ))]
    ∧ (20 : ℚ) ≠ (40 : ℚ) := by
  constructor
  · have hmap : ((handleCheckoutCompleted dbOk (fun _ => [⟨2000⟩]) "ORD-1"
        "t0" sessW storeW).1.orders.map (fun o =>
          (o.total,
           (o.items.map (fun it =>
              it.priceAtPurchase * (it.quantity : ℚ))).sum)))
        = [((((2000 : Int) : ℚ)) / 100,
            (((2000 : Int) : ℚ) / 100 * ((2 : Nat) : ℚ) + 0))] := rfl
    rw [hmap]
    norm_num
  · norm_num

end Shop
